import Mathlib

/-!
Shallow embedding of the `clairvoyance-esp32-c6` firmware
(`src/esp32_c6_wifi_functional.ino`) together with proofs about its
command dispatcher, session state machine, frame classifier and
network registry.

Modelling conventions:
* Arduino `String` values are modelled as `List Char` (`AStr`), with the
  `String` operations used by the sketch (`toLowerCase`, `trim`,
  `startsWith`, `substring`, `indexOf`, `toInt`) reimplemented faithfully.
* The 32-bit unsigned packet counters (`uint32_t`) are modelled as `Nat`
  with every increment taken modulo `2 ^ 32`.
* Serial output is modelled as the list of message lines a call produces.
  The unconditional framing (the echo of the typed command, the blank
  line printed on entry to `processCommand`, the trailing
  `"ESP32-C6> "` prompt, progress dots printed with `Serial.print`, and
  ANSI cursor control sequences) is not part of these lists.
* The radio / network environment (scan results, `WiFi.status()` polls,
  IP configuration) is an explicit `Env` parameter.  The arguments the
  firmware hands to `WiFi.begin` are recorded in the `beginArgs` field
  of a command result so that theorems can talk about the credentials
  actually used for an association attempt.
-/

/-- Arduino `String` contents, modelled as a list of characters. -/
abbrev AStr := List Char

/-- Character list of a Lean string literal (used to write `AStr` constants). -/
def chars (s : String) : AStr := s.data

/-- C `isspace` as used by Arduino `String::trim`. -/
def isWS (c : Char) : Bool :=
  c = ' ' || c = '\t' || c = '\n' || c = '\x0b' || c = '\x0c' || c = '\r'

/-- ASCII `tolower` applied by Arduino `String::toLowerCase` to each character. -/
def lowerChar (c : Char) : Char :=
  if 'A' ≤ c && c ≤ 'Z' then Char.ofNat (c.toNat + 32) else c

/-- Arduino `String::toLowerCase` (in-place in C++, functional here). -/
def toLowerCaseA (s : AStr) : AStr := s.map lowerChar

/-- Arduino `String::trim`: strip leading and trailing whitespace. -/
def trimA (s : AStr) : AStr := ((s.dropWhile isWS).reverse.dropWhile isWS).reverse

/-- Arduino `String::startsWith`. -/
def startsWithA (p s : AStr) : Bool := List.isPrefixOf p s

/-- Arduino `String::indexOf(" ")`: index of the first occurrence of a
character, or `-1` when absent. -/
def indexOfA (c : Char) : AStr → Int
  | [] => -1
  | x :: xs =>
    if x = c then 0
    else
      let r := indexOfA c xs
      if r = -1 then -1 else r + 1

/-- Value of the leading decimal digits of a character list. -/
def digitsValA (s : AStr) : Nat :=
  (s.takeWhile Char.isDigit).foldl (fun a c => a * 10 + (c.toNat - 48)) 0

/-- Arduino `String::toInt` (C `atol`): skip leading whitespace, optional
sign, then leading digits; `0` when there are no digits. -/
def toIntA (s : AStr) : Int :=
  match s.dropWhile isWS with
  | '-' :: rest => - (digitsValA rest : Int)
  | '+' :: rest => (digitsValA rest : Int)
  | s1 => (digitsValA s1 : Int)

/-- Modulus of the firmware `uint32_t` packet counters (`2 ^ 32`). -/
def UINT32_MOD : Nat := 4294967296

/-- Capacity of the network registry (`#define MAX_NETWORKS 50`). -/
def MAX_NETWORKS : Nat := 50

/-- Hardware frame-type tag `wifi_promiscuous_pkt_type_t` passed to the
sniffer callback (`WIFI_PKT_MGMT`, `WIFI_PKT_DATA`, `WIFI_PKT_CTRL`,
and `WIFI_PKT_MISC` for everything else). -/
inductive WifiPktType
  | mgmt
  | data
  | ctrl
  | misc
deriving DecidableEq, Repr

/-- The sketch function `NetworkInfo` record for one discovered network. -/
structure NetworkInfo where
  ssid : AStr
  bssid : AStr
  channel : Int
  rssi : Int
  encryption : Int
  is_wifi6 : Bool
  is_hidden : Bool
deriving DecidableEq, Repr

/-- Global state: the sketch global `ScannerState scanner_state` together with
the registry globals `detected_networks` / `network_count`.
`detected_networks` models the meaningful prefix of the fixed C array
(cells at index `≥ network_count` are never read by the sketch). -/
structure ScannerState where
  scanning_active : Bool
  monitoring_active : Bool
  connected_to_wifi : Bool
  current_channel : Int
  packet_count : Nat
  data_packets : Nat
  mgmt_packets : Nat
  ctrl_packets : Nat
  connected_ssid : AStr
  detected_networks : List NetworkInfo
  network_count : Nat
deriving DecidableEq, Repr

/-- Initial state: the field initializers of `ScannerState` plus the
zero-initialised registry globals. -/
def initialState : ScannerState :=
  { scanning_active := false
    monitoring_active := false
    connected_to_wifi := false
    current_channel := 1
    packet_count := 0
    data_packets := 0
    mgmt_packets := 0
    ctrl_packets := 0
    connected_ssid := []
    detected_networks := []
    network_count := 0 }

/-- Operating mode of the session state machine as described by the spec:
derived from the two state flags (scanning is synchronous and never
observable between commands). -/
inductive Mode
  | Idle
  | Connected
  | Monitoring
deriving DecidableEq, Repr

/-- Mode view of a scanner state. -/
def mode (st : ScannerState) : Mode :=
  if st.monitoring_active then Mode.Monitoring
  else if st.connected_to_wifi then Mode.Connected
  else Mode.Idle

/-- One entry of the scan report of the radio: what `WiFi.SSID(i)`,
`WiFi.BSSIDstr(i)`, `WiFi.channel(i)`, `WiFi.RSSI(i)` and
`WiFi.encryptionType(i)` return for index `i`. -/
structure ScanEntry where
  ssid : AStr
  bssid : AStr
  channel : Int
  rssi : Int
  encryption : Int
deriving DecidableEq, Repr

/-- Radio / network environment of one command: scan results, the
successive results of `WiFi.status()` polls (call number to
connected-or-not), and the link parameters reported on success. -/
structure Env where
  scanResults : List ScanEntry
  wifiStatus : Nat → Bool
  localIP : String
  gatewayIP : String
  dnsIP : String
  linkRSSI : Int
  linkChannel : Int

/-- Result of one dispatched command: the successor state, the message
lines printed, and the `(ssid, password)` pair handed to `WiFi.begin`
when an association was actually attempted. -/
structure CmdRes where
  state : ScannerState
  out : List String
  beginArgs : Option (AStr × AStr)
deriving DecidableEq, Repr

/-- The sniffer callback `packetSnifferCallback`: discard the frame when
monitoring is not active, otherwise bump `packet_count` and the
counter selected by the hardware frame-type tag (32-bit wrap-around).
The RSSI / signal-length inspection at the end of the C routine has no
effect and is not modelled. -/
def packetSnifferCallback (st : ScannerState) (t : WifiPktType) : ScannerState :=
  if !st.monitoring_active then st
  else
    let st1 := { st with packet_count := (st.packet_count + 1) % UINT32_MOD }
    match t with
    | WifiPktType.mgmt => { st1 with mgmt_packets := (st1.mgmt_packets + 1) % UINT32_MOD }
    | WifiPktType.data => { st1 with data_packets := (st1.data_packets + 1) % UINT32_MOD }
    | WifiPktType.ctrl => { st1 with ctrl_packets := (st1.ctrl_packets + 1) % UINT32_MOD }
    | WifiPktType.misc => st1

/-- Delivery of a whole sequence of frames to the sniffer callback. -/
def applyFrames (st : ScannerState) (fs : List WifiPktType) : ScannerState :=
  fs.foldl packetSnifferCallback st

/-- ESP-IDF `wifi_auth_mode_t` constant. -/
def WIFI_AUTH_OPEN : Int := 0

/-- ESP-IDF `wifi_auth_mode_t` constant. -/
def WIFI_AUTH_WEP : Int := 1

/-- ESP-IDF `wifi_auth_mode_t` constant. -/
def WIFI_AUTH_WPA_PSK : Int := 2

/-- ESP-IDF `wifi_auth_mode_t` constant. -/
def WIFI_AUTH_WPA2_PSK : Int := 3

/-- ESP-IDF `wifi_auth_mode_t` constant. -/
def WIFI_AUTH_WPA_WPA2_PSK : Int := 4

/-- ESP-IDF `wifi_auth_mode_t` constant. -/
def WIFI_AUTH_WPA2_ENTERPRISE : Int := 5

/-- ESP-IDF `wifi_auth_mode_t` constant. -/
def WIFI_AUTH_WPA3_PSK : Int := 6

/-- ESP-IDF `wifi_auth_mode_t` constant. -/
def WIFI_AUTH_WPA2_WPA3_PSK : Int := 7

/-- The sketch function `getEncryptionString`. -/
def getEncryptionString (encType : Int) : String :=
  if encType = WIFI_AUTH_OPEN then "Open"
  else if encType = WIFI_AUTH_WEP then "WEP"
  else if encType = WIFI_AUTH_WPA_PSK then "WPA"
  else if encType = WIFI_AUTH_WPA2_PSK then "WPA2"
  else if encType = WIFI_AUTH_WPA_WPA2_PSK then "WPA/2"
  else if encType = WIFI_AUTH_WPA2_ENTERPRISE then "WPA2E"
  else if encType = WIFI_AUTH_WPA3_PSK then "WPA3"
  else if encType = WIFI_AUTH_WPA2_WPA3_PSK then "WPA2/3"
  else "Unknown"

/-- The sketch function `checkWiFi6Support`: the documented signal-strength
heuristic over the scan entry the network index refers to. -/
def checkWiFi6Support (e : ScanEntry) : Bool :=
  if e.rssi > -50 then true else false

/-- One table row of the scan / networks listing.  The `printf` column
widths are not reproduced; the row contents and truncation of long
SSIDs are. -/
def networkRow (net : NetworkInfo) : String :=
  let sd := if net.is_hidden then chars "<Hidden>" else net.ssid
  let sd := if 20 < sd.length then sd.take 17 ++ chars "..." else sd
  String.mk sd ++ "  " ++ String.mk net.bssid ++ "  " ++ toString net.channel
    ++ "  " ++ toString net.rssi ++ "  " ++ getEncryptionString net.encryption
    ++ "  " ++ (if net.is_wifi6 then "Yes" else "No")

/-- Registry record built from one scan entry, as in the body of the
scan loop (`is_hidden` when the SSID is empty, `is_wifi6` from the
heuristic). -/
def mkNetworkInfo (e : ScanEntry) : NetworkInfo :=
  { ssid := e.ssid
    bssid := e.bssid
    channel := e.channel
    rssi := e.rssi
    encryption := e.encryption
    is_hidden := e.ssid.isEmpty
    is_wifi6 := checkWiFi6Support e }

/-- The sketch function `startNetworkScan`: rejected while monitoring;
otherwise the registry count is cleared and the loop
`for (i = 0; i < n && i < MAX_NETWORKS; i++)` refills the registry in
discovery order, truncating at capacity. -/
def startNetworkScan (env : Env) (st : ScannerState) : CmdRes :=
  if st.monitoring_active then
    { state := st
      out := ["Stop packet monitoring before scanning networks."]
      beginArgs := none }
  else
    let n := env.scanResults.length
    let nets := (env.scanResults.take MAX_NETWORKS).map mkNetworkInfo
    if n = 0 then
      { state := { st with network_count := 0, detected_networks := [] }
        out := ["Starting WiFi network scan...",
                "Scanning 2.4GHz channels 1-14 for WiFi 6 networks...",
                "No networks found."]
        beginArgs := none }
    else
      { state := { st with network_count := nets.length, detected_networks := nets }
        out := ["Starting WiFi network scan...",
                "Scanning 2.4GHz channels 1-14 for WiFi 6 networks...",
                "Scan complete. Found " ++ toString n ++ " networks:"]
               ++ nets.map networkRow
               ++ ["Use \x27connect <ssid> <password>\x27 to join a network"]
        beginArgs := none }

/-- The connect retry loop
`while (WiFi.status() != WL_CONNECTED && attempts < 20)`:
returns the final value of `attempts`, polling `f` at every loop head. -/
def pollConnect (f : Nat → Bool) : Nat → Nat → Nat
  | 0, a => a
  | fuel + 1, a => if f a then a else pollConnect f fuel (a + 1)

/-- The sketch function `checkCurrentConnectionWiFi6` heuristic for the live link. -/
def checkCurrentConnectionWiFi6 (env : Env) : Bool :=
  env.linkRSSI > -40 && env.linkChannel ≥ 6

/-- The sketch function `connectToWiFi`: guarded against active monitoring,
then `WiFi.begin(ssid, password)` followed by the bounded retry loop
and a final `WiFi.status()` check. -/
def connectToWiFi (env : Env) (ssid password : AStr) (st : ScannerState) : CmdRes :=
  if st.monitoring_active then
    { state := st
      out := ["Stop packet monitoring before connecting to WiFi."]
      beginArgs := none }
  else
    let attempts := pollConnect env.wifiStatus 20 0
    if env.wifiStatus (attempts + 1) then
      { state := { st with connected_to_wifi := true, connected_ssid := ssid }
        out := ["Connecting to: " ++ String.mk ssid,
                "\nConnection successful!",
                "IP Address: " ++ env.localIP,
                "Gateway: " ++ env.gatewayIP,
                "DNS: " ++ env.dnsIP,
                "RSSI: " ++ toString env.linkRSSI ++ " dBm",
                "Channel: " ++ toString env.linkChannel,
                if checkCurrentConnectionWiFi6 env then
                  "✓ Connected to WiFi 6 (802.11ax) network"
                else
                  "◦ Connected to legacy WiFi network"]
        beginArgs := some (ssid, password) }
    else
      { state := st
        out := ["Connecting to: " ++ String.mk ssid,
                "\nConnection failed!",
                "Check SSID and password, or network availability."]
        beginArgs := some (ssid, password) }

/-- The sketch function `disconnectWiFi`. -/
def disconnectWiFi (st : ScannerState) : CmdRes :=
  if st.connected_to_wifi then
    { state := { st with connected_to_wifi := false, connected_ssid := [] }
      out := ["Disconnected from WiFi network."]
      beginArgs := none }
  else
    { state := st
      out := ["Not connected to any WiFi network."]
      beginArgs := none }

/-- The sketch function `updateMonitoringStatus` line (printed over the current
line; the `\r` and ANSI erase prefix are presentation only). -/
def updateMonitoringStatus (st : ScannerState) : String :=
  "CH" ++ toString st.current_channel
    ++ " | Packets: " ++ toString st.packet_count
    ++ " | Mgmt: " ++ toString st.mgmt_packets
    ++ " | Data: " ++ toString st.data_packets
    ++ " | Ctrl: " ++ toString st.ctrl_packets
    ++ " | Freq: " ++ toString (2412 + (st.current_channel - 1) * 5) ++ "MHz"

/-- The sketch function `startPacketMonitoring`: guarded against an active
connection, `0` replaced by the stored channel, range check, counter
reset, channel store, transition to monitoring, and the start banner
followed by one immediate status line. -/
def startPacketMonitoring (channel : Int) (st : ScannerState) : CmdRes :=
  if st.connected_to_wifi then
    { state := st
      out := ["Disconnect from WiFi before starting packet monitoring."]
      beginArgs := none }
  else
    let channel := if channel = 0 then st.current_channel else channel
    if channel < 1 ∨ channel > 14 then
      { state := st
        out := ["Invalid channel. Use 1-14."]
        beginArgs := none }
    else
      let st2 := { st with
        packet_count := 0
        data_packets := 0
        mgmt_packets := 0
        ctrl_packets := 0
        current_channel := channel
        monitoring_active := true }
      { state := st2
        out := ["Packet monitoring started on channel " ++ toString channel,
                "Monitoring 2.4GHz frequency: "
                  ++ toString (2412 + (channel - 1) * 5) ++ " MHz",
                "Press \x27stop\x27 to end monitoring or \x27channel <n>\x27 to change channel",
                "",
                updateMonitoringStatus st2]
        beginArgs := none }

/-- The sketch function `stopPacketMonitoring`. -/
def stopPacketMonitoring (st : ScannerState) : CmdRes :=
  if st.monitoring_active then
    { state := { st with monitoring_active := false }
      out := ["\nPacket monitoring stopped.",
              "Final Statistics:",
              "  Total Packets: " ++ toString st.packet_count,
              "  Management: " ++ toString st.mgmt_packets,
              "  Data: " ++ toString st.data_packets,
              "  Control: " ++ toString st.ctrl_packets]
      beginArgs := none }
  else
    { state := st
      out := ["Packet monitoring is not active."]
      beginArgs := none }

/-- The sketch function `changeChannel`: range check first, then the stored
channel is always updated; the radio is retuned only while monitoring. -/
def changeChannel (channel : Int) (st : ScannerState) : CmdRes :=
  if channel < 1 ∨ channel > 14 then
    { state := st
      out := ["Invalid channel. Use 1-14 (2.4GHz ISM band)."]
      beginArgs := none }
  else
    let st2 := { st with current_channel := channel }
    if st2.monitoring_active then
      { state := st2
        out := ["Changed to channel " ++ toString channel
                  ++ " (" ++ toString (2412 + (channel - 1) * 5) ++ " MHz)"]
        beginArgs := none }
    else
      { state := st2
        out := ["Channel set to " ++ toString channel ++ ". Start monitoring to apply."]
        beginArgs := none }

/-- The sketch function `showNetworks`. -/
def showNetworks (st : ScannerState) : CmdRes :=
  if st.network_count = 0 then
    { state := st
      out := ["No networks found. Run \x27scan\x27 first."]
      beginArgs := none }
  else
    { state := st
      out := ["Previously Scanned Networks:"]
             ++ (st.detected_networks.take st.network_count).map networkRow
      beginArgs := none }

/-- The sketch function `showStatus` (the heap / uptime introspection lines are
hardware reporting outside the model). -/
def showStatus (env : Env) (st : ScannerState) : CmdRes :=
  { state := st
    out := ["ESP32-C6 WiFi Scanner Status:",
            "=============================",
            "Monitoring Active: " ++ (if st.monitoring_active then "Yes" else "No"),
            "WiFi Connected: " ++ (if st.connected_to_wifi then "Yes" else "No")]
           ++ (if st.connected_to_wifi then
                ["Connected SSID: " ++ String.mk st.connected_ssid,
                 "IP Address: " ++ env.localIP,
                 "Signal Strength: " ++ toString env.linkRSSI ++ " dBm"]
              else [])
           ++ (if st.monitoring_active then
                ["Current Channel: " ++ toString st.current_channel,
                 "Frequency: " ++ toString (2412 + (st.current_channel - 1) * 5) ++ " MHz",
                 "Packets Captured: " ++ toString st.packet_count,
                 "  Management: " ++ toString st.mgmt_packets,
                 "  Data: " ++ toString st.data_packets,
                 "  Control: " ++ toString st.ctrl_packets]
              else [])
           ++ ["Networks Found: " ++ toString st.network_count]
    beginArgs := none }

/-- CSV row of `exportResults`. -/
def csvRow (net : NetworkInfo) : String :=
  String.mk net.ssid ++ "," ++ String.mk net.bssid ++ "," ++ toString net.channel
    ++ "," ++ toString net.rssi ++ "," ++ getEncryptionString net.encryption
    ++ "," ++ (if net.is_wifi6 then "Yes" else "No")
    ++ "," ++ (if net.is_hidden then "Yes" else "No")

/-- The sketch function `exportResults` (the `millis()` timestamp line is
hardware reporting outside the model). -/
def exportResults (st : ScannerState) : CmdRes :=
  { state := st
    out := ["Exporting scan results...",
            "\n--- SCAN RESULTS EXPORT ---",
            "Device: ESP32-C6 WiFi Scanner",
            "Total Networks: " ++ toString st.network_count]
           ++ (if st.monitoring_active then
                ["Packet Monitoring: Active (Channel "
                   ++ toString st.current_channel ++ ")",
                 "Packets Captured: " ++ toString st.packet_count]
              else [])
           ++ ["\nNetwork Details (CSV Format):",
               "SSID,BSSID,Channel,RSSI,Encryption,WiFi6,Hidden"]
           ++ (st.detected_networks.take st.network_count).map csvRow
           ++ ["--- END EXPORT ---\n"]
    beginArgs := none }

/-- Static help menu: purely constant text read by no claim, abbreviated
to a marker line. -/
def showHelp : List String := ["<help menu>"]

/-- Startup banner plus hardware introspection: constant / hardware
reporting read by no claim, abbreviated to a marker line. -/
def printBanner : List String := ["<banner>"]

/-- Static system information report: hardware introspection read by no
claim, abbreviated to a marker line. -/
def systemInfo (st : ScannerState) : CmdRes :=
  { state := st, out := ["<system information>"], beginArgs := none }

/-- The sketch function `processCommand`: lower-case and trim the typed line,
then match it against the command grammar in source order. -/
def processCommand (env : Env) (cmd0 : AStr) (st : ScannerState) : CmdRes :=
  let cmd := trimA (toLowerCaseA cmd0)
  if cmd = chars "help" ∨ cmd = chars "h" then
    { state := st, out := showHelp, beginArgs := none }
  else if cmd = chars "scan" ∨ cmd = chars "s" then
    startNetworkScan env st
  else if startsWithA (chars "connect ") cmd then
    let params := cmd.drop 8
    let spaceIndex := indexOfA ' ' params
    if spaceIndex > 0 then
      connectToWiFi env (params.take spaceIndex.toNat)
        (params.drop (spaceIndex.toNat + 1)) st
    else
      { state := st, out := ["Usage: connect <ssid> <password>"], beginArgs := none }
  else if cmd = chars "disconnect" ∨ cmd = chars "dc" then
    disconnectWiFi st
  else if startsWithA (chars "monitor ") cmd then
    let channel := toIntA (cmd.drop 8)
    if 1 ≤ channel ∧ channel ≤ 14 then
      startPacketMonitoring channel st
    else
      { state := st
        out := ["Invalid channel. Use 1-14 or 0 for current channel."]
        beginArgs := none }
  else if cmd = chars "monitor" ∨ cmd = chars "m" then
    startPacketMonitoring 0 st
  else if cmd = chars "stop" ∨ cmd = chars "x" then
    stopPacketMonitoring st
  else if cmd = chars "networks" ∨ cmd = chars "n" then
    showNetworks st
  else if cmd = chars "status" ∨ cmd = chars "st" then
    showStatus env st
  else if startsWithA (chars "channel ") cmd then
    changeChannel (toIntA (cmd.drop 8)) st
  else if cmd = chars "clear" ∨ cmd = chars "cls" then
    { state := st, out := printBanner, beginArgs := none }
  else if cmd = chars "info" ∨ cmd = chars "i" then
    systemInfo st
  else if cmd = chars "export" ∨ cmd = chars "e" then
    exportResults st
  else if cmd = chars "reset" ∨ cmd = chars "r" then
    { state := st, out := ["Resetting ESP32-C6..."], beginArgs := none }
  else if 0 < cmd.length then
    { state := st
      out := ["Unknown command: " ++ String.mk cmd,
              "Type \x27help\x27 for available commands."]
      beginArgs := none }
  else
    { state := st, out := [], beginArgs := none }

/-! Infrastructure lemmas about the modelled Arduino string primitives. -/

/-- Code points produced by `Char.ofNat` below the surrogate range are
kept verbatim. -/
lemma char_toNat_ofNat (n : Nat) (h : n < 0xd800) : (Char.ofNat n).toNat = n := by
  simp [Char.ofNat, Char.toNat]
  rw [dif_pos (Or.inl h)]
  rfl

/-- A character whose code point exceeds 32 is not C whitespace. -/
lemma isWS_eq_false_of_gt (c : Char) (h : 32 < c.toNat) : isWS c = false := by
  have h1 : c ≠ ' ' := fun e => absurd (e ▸ h) (by decide)
  have h2 : c ≠ '\t' := fun e => absurd (e ▸ h) (by decide)
  have h3 : c ≠ '\n' := fun e => absurd (e ▸ h) (by decide)
  have h4 : c ≠ '\x0b' := fun e => absurd (e ▸ h) (by decide)
  have h5 : c ≠ '\x0c' := fun e => absurd (e ▸ h) (by decide)
  have h6 : c ≠ '\r' := fun e => absurd (e ▸ h) (by decide)
  simp [isWS, h1, h2, h3, h4, h5, h6]

/-- Lower-casing an upper-case letter adds 32 to its code point. -/
lemma toNat_lowerChar_of_upper (c : Char) (hc : ('A' ≤ c && c ≤ 'Z') = true) :
    (lowerChar c).toNat = c.toNat + 32 := by
  have hub : c.toNat ≤ 90 := by
    have := (Bool.and_eq_true _ _).mp hc |>.2
    rw [decide_eq_true_iff, Char.le_def] at this
    exact this
  rw [lowerChar, if_pos hc]
  exact char_toNat_ofNat _ (by omega)

/-- Lower-casing never turns a non-whitespace character into whitespace. -/
lemma isWS_lowerChar (c : Char) : isWS (lowerChar c) = isWS c := by
  by_cases hc : ('A' ≤ c && c ≤ 'Z') = true
  · have hlb : 65 ≤ c.toNat := by
      have := (Bool.and_eq_true _ _).mp hc |>.1
      rw [decide_eq_true_iff, Char.le_def] at this
      exact this
    have h1 : isWS (lowerChar c) = false := by
      apply isWS_eq_false_of_gt
      rw [toNat_lowerChar_of_upper c hc]
      omega
    have h2 : isWS c = false := isWS_eq_false_of_gt c (by omega)
    rw [h1, h2]
  · rw [lowerChar, if_neg hc]

/-- Lower-casing maps a character to a space only if it was a space. -/
lemma lowerChar_eq_space_iff (c : Char) : lowerChar c = ' ' ↔ c = ' ' := by
  constructor
  · intro h
    by_cases hc : ('A' ≤ c && c ≤ 'Z') = true
    · have := toNat_lowerChar_of_upper c hc
      rw [h] at this
      have hlb : 65 ≤ c.toNat := by
        have := (Bool.and_eq_true _ _).mp hc |>.1
        rw [decide_eq_true_iff, Char.le_def] at this
        exact this
      have : (32 : Nat) = c.toNat + 32 := this
      omega
    · rwa [lowerChar, if_neg hc] at h
  · intro h
    subst h
    decide

/-- Lower-casing moves an upper-case letter. -/
lemma lowerChar_ne_of_upper (c : Char) (hc : ('A' ≤ c && c ≤ 'Z') = true) :
    lowerChar c ≠ c := by
  intro h
  have := toNat_lowerChar_of_upper c hc
  rw [h] at this
  omega

/-- Mapping a function that fixes every element of a list is the identity. -/
lemma map_eq_self_of_fixed {f : Char → Char} (l : AStr) (h : ∀ c ∈ l, f c = c) :
    l.map f = l := by
  induction l with
  | nil => rfl
  | cons a as ih =>
    simp only [List.map_cons, h a (List.mem_cons_self a as)]
    rw [ih fun c hc => h c (List.mem_cons_of_mem a hc)]

/-- Conversely, a list fixed by a character map is fixed pointwise. -/
lemma fixed_of_map_eq_self {f : Char → Char} (l : AStr) (h : l.map f = l) :
    ∀ c ∈ l, f c = c := by
  induction l with
  | nil => exact fun c hc => absurd hc (List.not_mem_nil c)
  | cons a as ih =>
    rw [List.map_cons, List.cons_eq_cons] at h
    intro c hc
    rcases List.mem_cons.mp hc with rfl | hc
    · exact h.1
    · exact ih h.2 c hc

/-- Arduino `trim` leaves a string alone when neither end is whitespace. -/
lemma trimA_eq_self (l : AStr)
    (h1 : ∀ c, l.head? = some c → isWS c = false)
    (h2 : ∀ c, l.getLast? = some c → isWS c = false) :
    trimA l = l := by
  have hd : l.dropWhile isWS = l := by
    cases l with
    | nil => rfl
    | cons a as => simp [List.dropWhile, h1 a rfl]
  rw [trimA, hd]
  have hr : l.reverse.dropWhile isWS = l.reverse := by
    cases hrev : l.reverse with
    | nil => rfl
    | cons a as =>
      have ha : l.getLast? = some a := by
        rw [← List.head?_reverse, hrev]
        rfl
      simp [List.dropWhile, h2 a ha]
  rw [hr, List.reverse_reverse]

/-- Index of the separating occurrence of a character not present earlier. -/
lemma indexOfA_append_cons (c : Char) (l r : AStr) (h : c ∉ l) :
    indexOfA c (l ++ c :: r) = (l.length : Int) := by
  induction l with
  | nil => simp [indexOfA]
  | cons a as ih =>
    have hac : a ≠ c := fun e => h (e ▸ List.mem_cons_self a as)
    have ih2 := ih fun hc => h (List.mem_cons_of_mem a hc)
    simp only [List.cons_append, indexOfA, if_neg hac, List.append_eq, ih2]
    rw [if_neg (by omega : ¬ ((as.length : Int) = -1))]
    simp only [List.length_cons]
    push_cast
    ring

/-- A character absent from a list is reported at index `-1`. -/
lemma indexOfA_eq_neg_one (c : Char) (l : AStr) (h : c ∉ l) :
    indexOfA c l = -1 := by
  induction l with
  | nil => rfl
  | cons a as ih =>
    have hac : a ≠ c := fun e => h (e ▸ List.mem_cons_self a as)
    have ih2 := ih fun hc => h (List.mem_cons_of_mem a hc)
    simp [indexOfA, if_neg hac, ih2]

/-- Dispatch of a `channel <arg>` line whose argument contains no
whitespace and is fixed by lower-casing (digit strings in particular):
the dispatcher hands the parsed integer to `changeChannel`. -/
lemma dispatch_channel (env : Env) (st : ScannerState) (rest : AStr) (hne : rest ≠ [])
    (hfix : ∀ c ∈ rest, isWS c = false ∧ lowerChar c = c) :
    processCommand env (chars "channel " ++ rest) st = changeChannel (toIntA rest) st := by
  have hlfix : toLowerCaseA rest = rest := map_eq_self_of_fixed rest (fun c hc => (hfix c hc).2)
  have hlow : toLowerCaseA (chars "channel " ++ rest) = chars "channel " ++ rest := by
    rw [toLowerCaseA, List.map_append]
    rw [show (chars "channel ").map lowerChar = chars "channel " by decide]
    rw [← toLowerCaseA, hlfix]
  have htrim : trimA (chars "channel " ++ rest) = chars "channel " ++ rest := by
    apply trimA_eq_self
    · intro c hc
      simp [chars] at hc
      rw [← hc]
      decide
    · intro c hc
      rw [List.getLast?_append_of_ne_nil _ hne] at hc
      have : c ∈ rest := List.mem_of_getLast?_eq_some hc
      exact (hfix c this).1
  simp only [processCommand, hlow, htrim]
  simp [chars, startsWithA, List.isPrefixOf]

/-- Dispatch of a `monitor <arg>` line whose argument contains no
whitespace and is fixed by lower-casing: the dispatcher range-checks the
parsed integer itself and only then calls `startPacketMonitoring`. -/
lemma dispatch_monitor (env : Env) (st : ScannerState) (rest : AStr) (hne : rest ≠ [])
    (hfix : ∀ c ∈ rest, isWS c = false ∧ lowerChar c = c) :
    processCommand env (chars "monitor " ++ rest) st =
      (if 1 ≤ toIntA rest ∧ toIntA rest ≤ 14 then startPacketMonitoring (toIntA rest) st
       else { state := st
              out := ["Invalid channel. Use 1-14 or 0 for current channel."]
              beginArgs := none }) := by
  have hlfix : toLowerCaseA rest = rest := map_eq_self_of_fixed rest (fun c hc => (hfix c hc).2)
  have hlow : toLowerCaseA (chars "monitor " ++ rest) = chars "monitor " ++ rest := by
    rw [toLowerCaseA, List.map_append]
    rw [show (chars "monitor ").map lowerChar = chars "monitor " by decide]
    rw [← toLowerCaseA, hlfix]
  have htrim : trimA (chars "monitor " ++ rest) = chars "monitor " ++ rest := by
    apply trimA_eq_self
    · intro c hc
      simp [chars] at hc
      rw [← hc]
      decide
    · intro c hc
      rw [List.getLast?_append_of_ne_nil _ hne] at hc
      exact (hfix c (List.mem_of_getLast?_eq_some hc)).1
  simp only [processCommand, hlow, htrim]
  simp [chars, startsWithA, List.isPrefixOf]

/-- Dispatch of a `connect <rest>` line whose remainder does not end in
whitespace: the remainder is lower-cased and split at its first space
into the credentials handed to `connectToWiFi`. -/
lemma dispatch_connect (env : Env) (st : ScannerState) (rest : AStr) (hne : rest ≠ [])
    (hlast : ∀ c, rest.getLast? = some c → isWS c = false) :
    processCommand env (chars "connect " ++ rest) st =
      (let params := toLowerCaseA rest
       let spaceIndex := indexOfA ' ' params
       if spaceIndex > 0 then
         connectToWiFi env (params.take spaceIndex.toNat)
           (params.drop (spaceIndex.toNat + 1)) st
       else { state := st, out := ["Usage: connect <ssid> <password>"], beginArgs := none }) := by
  have hlne : toLowerCaseA rest ≠ [] := by
    intro h
    exact hne (List.map_eq_nil_iff.mp h)
  have hlow : toLowerCaseA (chars "connect " ++ rest) = chars "connect " ++ toLowerCaseA rest := by
    rw [toLowerCaseA, List.map_append]
    rw [show (chars "connect ").map lowerChar = chars "connect " by decide]
    rfl
  have htrim : trimA (chars "connect " ++ toLowerCaseA rest) = chars "connect " ++ toLowerCaseA rest := by
    apply trimA_eq_self
    · intro c hc
      simp [chars] at hc
      rw [← hc]
      decide
    · intro c hc
      rw [List.getLast?_append_of_ne_nil _ hlne] at hc
      rw [toLowerCaseA, List.getLast?_map] at hc
      cases hg : rest.getLast? with
      | none => rw [hg] at hc; exact absurd hc (by simp)
      | some d =>
        rw [hg] at hc
        rw [show Option.map lowerChar (some d) = some (lowerChar d) from rfl] at hc
        injection hc with h2
        rw [← h2, isWS_lowerChar]
        exact hlast d hg
  simp only [processCommand, hlow, htrim]
  simp [chars, startsWithA, List.isPrefixOf]

/-- The sniffer callback never changes the monitoring flag. -/
lemma packetSnifferCallback_monitoring (st : ScannerState) (t : WifiPktType) :
    (packetSnifferCallback st t).monitoring_active = st.monitoring_active := by
  cases h : st.monitoring_active <;> cases t <;> simp [packetSnifferCallback, h]

/-- While monitoring, every delivered frame bumps the total counter
modulo `2 ^ 32`, whatever its type tag. -/
lemma packetSnifferCallback_packet_count (st : ScannerState) (t : WifiPktType)
    (hm : st.monitoring_active = true) :
    (packetSnifferCallback st t).packet_count = (st.packet_count + 1) % UINT32_MOD := by
  cases t <;> simp [packetSnifferCallback, hm]

/-- While monitoring, the management counter is bumped exactly for
management-tagged frames. -/
lemma packetSnifferCallback_mgmt (st : ScannerState) (t : WifiPktType)
    (hm : st.monitoring_active = true) :
    (packetSnifferCallback st t).mgmt_packets =
      if t = WifiPktType.mgmt then (st.mgmt_packets + 1) % UINT32_MOD
      else st.mgmt_packets := by
  cases t <;> simp [packetSnifferCallback, hm]

/-- While monitoring, the data counter is bumped exactly for data-tagged
frames. -/
lemma packetSnifferCallback_data (st : ScannerState) (t : WifiPktType)
    (hm : st.monitoring_active = true) :
    (packetSnifferCallback st t).data_packets =
      if t = WifiPktType.data then (st.data_packets + 1) % UINT32_MOD
      else st.data_packets := by
  cases t <;> simp [packetSnifferCallback, hm]

/-- While monitoring, the control counter is bumped exactly for
control-tagged frames. -/
lemma packetSnifferCallback_ctrl (st : ScannerState) (t : WifiPktType)
    (hm : st.monitoring_active = true) :
    (packetSnifferCallback st t).ctrl_packets =
      if t = WifiPktType.ctrl then (st.ctrl_packets + 1) % UINT32_MOD
      else st.ctrl_packets := by
  cases t <;> simp [packetSnifferCallback, hm]

/-- The counter modulus is positive. -/
lemma uint32_mod_pos : 0 < UINT32_MOD := by decide

/-- Frame delivery never changes the monitoring flag. -/
lemma applyFrames_monitoring (fs : List WifiPktType) (st : ScannerState) :
    (applyFrames st fs).monitoring_active = st.monitoring_active := by
  induction fs generalizing st with
  | nil => rfl
  | cons t fs ih =>
    rw [applyFrames, List.foldl_cons, ← applyFrames, ih, packetSnifferCallback_monitoring]

/-- Counter accounting for the total over a frame sequence. -/
lemma applyFrames_packet_count (fs : List WifiPktType) (st : ScannerState)
    (hm : st.monitoring_active = true) (h1 : st.packet_count < UINT32_MOD) :
    (applyFrames st fs).packet_count = (st.packet_count + fs.length) % UINT32_MOD := by
  induction fs generalizing st with
  | nil =>
    rw [applyFrames, List.foldl_nil, List.length_nil, Nat.add_zero, Nat.mod_eq_of_lt h1]
  | cons t fs ih =>
    rw [applyFrames, List.foldl_cons, ← applyFrames]
    have hm2 : (packetSnifferCallback st t).monitoring_active = true := by
      rw [packetSnifferCallback_monitoring]; exact hm
    have hb : (packetSnifferCallback st t).packet_count < UINT32_MOD := by
      rw [packetSnifferCallback_packet_count st t hm]
      exact Nat.mod_lt _ uint32_mod_pos
    rw [ih _ hm2 hb, packetSnifferCallback_packet_count st t hm, List.length_cons]
    simp only [UINT32_MOD]
    omega

/-- Counter accounting for the management counter over a frame sequence. -/
lemma applyFrames_mgmt (fs : List WifiPktType) (st : ScannerState)
    (hm : st.monitoring_active = true) (h2 : st.mgmt_packets < UINT32_MOD) :
    (applyFrames st fs).mgmt_packets =
      (st.mgmt_packets + fs.count WifiPktType.mgmt) % UINT32_MOD := by
  induction fs generalizing st with
  | nil =>
    rw [applyFrames, List.foldl_nil, List.count_nil, Nat.add_zero, Nat.mod_eq_of_lt h2]
  | cons t fs ih =>
    rw [applyFrames, List.foldl_cons, ← applyFrames]
    have hm2 : (packetSnifferCallback st t).monitoring_active = true := by
      rw [packetSnifferCallback_monitoring]; exact hm
    have hb : (packetSnifferCallback st t).mgmt_packets < UINT32_MOD := by
      rw [packetSnifferCallback_mgmt st t hm]
      split
      · exact Nat.mod_lt _ uint32_mod_pos
      · exact h2
    rw [ih _ hm2 hb, packetSnifferCallback_mgmt st t hm]
    by_cases ht : t = WifiPktType.mgmt
    · rw [if_pos ht, ht]
      simp only [List.count_cons, UINT32_MOD]
      simp
      omega
    · rw [if_neg ht]
      simp [List.count_cons, ht]

/-- Counter accounting for the data counter over a frame sequence. -/
lemma applyFrames_data (fs : List WifiPktType) (st : ScannerState)
    (hm : st.monitoring_active = true) (h3 : st.data_packets < UINT32_MOD) :
    (applyFrames st fs).data_packets =
      (st.data_packets + fs.count WifiPktType.data) % UINT32_MOD := by
  induction fs generalizing st with
  | nil =>
    rw [applyFrames, List.foldl_nil, List.count_nil, Nat.add_zero, Nat.mod_eq_of_lt h3]
  | cons t fs ih =>
    rw [applyFrames, List.foldl_cons, ← applyFrames]
    have hm2 : (packetSnifferCallback st t).monitoring_active = true := by
      rw [packetSnifferCallback_monitoring]; exact hm
    have hb : (packetSnifferCallback st t).data_packets < UINT32_MOD := by
      rw [packetSnifferCallback_data st t hm]
      split
      · exact Nat.mod_lt _ uint32_mod_pos
      · exact h3
    rw [ih _ hm2 hb, packetSnifferCallback_data st t hm]
    by_cases ht : t = WifiPktType.data
    · rw [if_pos ht, ht]
      simp only [List.count_cons, UINT32_MOD]
      simp
      omega
    · rw [if_neg ht]
      simp [List.count_cons, ht]

/-- Counter accounting for the control counter over a frame sequence. -/
lemma applyFrames_ctrl (fs : List WifiPktType) (st : ScannerState)
    (hm : st.monitoring_active = true) (h4 : st.ctrl_packets < UINT32_MOD) :
    (applyFrames st fs).ctrl_packets =
      (st.ctrl_packets + fs.count WifiPktType.ctrl) % UINT32_MOD := by
  induction fs generalizing st with
  | nil =>
    rw [applyFrames, List.foldl_nil, List.count_nil, Nat.add_zero, Nat.mod_eq_of_lt h4]
  | cons t fs ih =>
    rw [applyFrames, List.foldl_cons, ← applyFrames]
    have hm2 : (packetSnifferCallback st t).monitoring_active = true := by
      rw [packetSnifferCallback_monitoring]; exact hm
    have hb : (packetSnifferCallback st t).ctrl_packets < UINT32_MOD := by
      rw [packetSnifferCallback_ctrl st t hm]
      split
      · exact Nat.mod_lt _ uint32_mod_pos
      · exact h4
    rw [ih _ hm2 hb, packetSnifferCallback_ctrl st t hm]
    by_cases ht : t = WifiPktType.ctrl
    · rw [if_pos ht, ht]
      simp only [List.count_cons, UINT32_MOD]
      simp
      omega
    · rw [if_neg ht]
      simp [List.count_cons, ht]

/-- Environment with no networks and a link that never comes up. -/
def env0 : Env :=
  { scanResults := []
    wifiStatus := fun _ => false
    localIP := ""
    gatewayIP := ""
    dnsIP := ""
    linkRSSI := 0
    linkChannel := 0 }

/-- State monitoring on channel 6 with fresh counters. -/
def stMon6 : ScannerState :=
  { initialState with monitoring_active := true, current_channel := 6 }

/-- State connected to a network. -/
def stConn : ScannerState :=
  { initialState with connected_to_wifi := true, connected_ssid := chars "mynet" }

/-- Counter-reset / channel-store / mode-transition effect of Start
Monitoring, named for reuse in theorem statements. -/
def armState (n : Int) (st : ScannerState) : ScannerState :=
  { st with packet_count := 0, data_packets := 0, mgmt_packets := 0,
            ctrl_packets := 0, current_channel := n, monitoring_active := true }

/-- Net effect of a successful Start Monitoring call. -/
lemma startPacketMonitoring_spec (n : Int) (st : ScannerState)
    (hconn : st.connected_to_wifi = false) (hlo : 1 ≤ n) (hhi : n ≤ 14) :
    startPacketMonitoring n st =
      { state := armState n st
        out := ["Packet monitoring started on channel " ++ toString n,
                "Monitoring 2.4GHz frequency: "
                  ++ toString (2412 + (n - 1) * 5) ++ " MHz",
                "Press \x27stop\x27 to end monitoring or \x27channel <n>\x27 to change channel",
                "",
                updateMonitoringStatus (armState n st)]
        beginArgs := none } := by
  rw [startPacketMonitoring]
  rw [if_neg (by rw [hconn]; simp)]
  rw [if_neg (show ¬ n = 0 by omega)]
  rw [if_neg (show ¬ (n < 1 ∨ n > 14) by omega)]
  rfl

/-- Sum of the three classified counts never exceeds the frame count. -/
lemma three_counts_le_length (fs : List WifiPktType) :
    fs.count WifiPktType.mgmt + fs.count WifiPktType.data + fs.count WifiPktType.ctrl
      ≤ fs.length := by
  induction fs with
  | nil => simp
  | cons t fs ih => cases t <;> simp [List.count_cons] <;> omega

/-- A sequence of `2 ^ 32 - 1` data frames, enough to drive the 32-bit
counters to their maximum. -/
def wrapFrames : List WifiPktType := List.replicate (UINT32_MOD - 1) WifiPktType.data

/-- Claim C1 (amended): for every frame delivered to
`packetSnifferCallback`, if monitoring is not active the state (all four
counters included) is unchanged; if monitoring is active, `packet_count`
is incremented by 1 modulo `2 ^ 32` and exactly the counter matching the
hardware tag (management / data / control) is incremented by 1 modulo
`2 ^ 32`, no classified counter moving on an unknown tag.  The modulus
qualification is forced by the 32-bit counters: see
`C1_counterexample`. -/
theorem C1_sniffer_classification (st : ScannerState) (t : WifiPktType) :
    (st.monitoring_active = false → packetSnifferCallback st t = st) ∧
    (st.monitoring_active = true →
      (packetSnifferCallback st t).packet_count = (st.packet_count + 1) % UINT32_MOD ∧
      (packetSnifferCallback st t).mgmt_packets =
        (if t = WifiPktType.mgmt then (st.mgmt_packets + 1) % UINT32_MOD
         else st.mgmt_packets) ∧
      (packetSnifferCallback st t).data_packets =
        (if t = WifiPktType.data then (st.data_packets + 1) % UINT32_MOD
         else st.data_packets) ∧
      (packetSnifferCallback st t).ctrl_packets =
        (if t = WifiPktType.ctrl then (st.ctrl_packets + 1) % UINT32_MOD
         else st.ctrl_packets)) := by
  constructor
  · intro h
    cases t <;> simp [packetSnifferCallback, h]
  · intro h
    exact ⟨packetSnifferCallback_packet_count st t h, packetSnifferCallback_mgmt st t h,
      packetSnifferCallback_data st t h, packetSnifferCallback_ctrl st t h⟩

/-- Concrete instance of `C1_sniffer_classification` at an idle state and
at a monitoring state. -/
theorem C1_witness :
    packetSnifferCallback initialState WifiPktType.data = initialState ∧
    (packetSnifferCallback stMon6 WifiPktType.data).packet_count =
      (stMon6.packet_count + 1) % UINT32_MOD :=
  ⟨(C1_sniffer_classification initialState WifiPktType.data).1 rfl,
   ((C1_sniffer_classification stMon6 WifiPktType.data).2 rfl).1⟩

/-- Claim C1 as stated is false on the code: after `2 ^ 32 - 1` data
frames the next data frame wraps `packet_count` to `0` instead of
incrementing it by exactly 1. -/
theorem C1_counterexample :
    (packetSnifferCallback (applyFrames stMon6 wrapFrames) WifiPktType.data).packet_count ≠
      (applyFrames stMon6 wrapFrames).packet_count + 1 := by
  have hm : (applyFrames stMon6 wrapFrames).monitoring_active = true := by
    rw [applyFrames_monitoring]
    rfl
  have hpc : (applyFrames stMon6 wrapFrames).packet_count = UINT32_MOD - 1 := by
    rw [applyFrames_packet_count _ _ rfl (by norm_num [stMon6, initialState, UINT32_MOD])]
    rw [show wrapFrames.length = UINT32_MOD - 1 from by rw [wrapFrames, List.length_replicate]]
    rw [show stMon6.packet_count = 0 from rfl, Nat.zero_add]
    rw [Nat.mod_eq_of_lt (by norm_num [UINT32_MOD])]
  rw [packetSnifferCallback_packet_count _ _ hm, hpc]
  norm_num [UINT32_MOD]

/-- Claim C2 (amended): starting monitoring on a valid channel zeroes the
counters, and along any delivery sequence of fewer than `2 ^ 32` frames
each of the four counters is monotonically non-decreasing from any
observation point to any later one, the invariant
`management + data + control ≤ total` holds, and monitoring stays
active.  The length bound is forced by the 32-bit counters: see
`C2_counterexample`. -/
theorem C2_monitoring_invariant (stPre : ScannerState) (n : Int) (fs tail : List WifiPktType)
    (hconn : stPre.connected_to_wifi = false) (hlo : 1 ≤ n) (hhi : n ≤ 14)
    (hlen : (fs ++ tail).length < UINT32_MOD) :
    (applyFrames (startPacketMonitoring n stPre).state fs).packet_count ≤
      (applyFrames (startPacketMonitoring n stPre).state (fs ++ tail)).packet_count ∧
    (applyFrames (startPacketMonitoring n stPre).state fs).mgmt_packets ≤
      (applyFrames (startPacketMonitoring n stPre).state (fs ++ tail)).mgmt_packets ∧
    (applyFrames (startPacketMonitoring n stPre).state fs).data_packets ≤
      (applyFrames (startPacketMonitoring n stPre).state (fs ++ tail)).data_packets ∧
    (applyFrames (startPacketMonitoring n stPre).state fs).ctrl_packets ≤
      (applyFrames (startPacketMonitoring n stPre).state (fs ++ tail)).ctrl_packets ∧
    (applyFrames (startPacketMonitoring n stPre).state (fs ++ tail)).mgmt_packets +
      (applyFrames (startPacketMonitoring n stPre).state (fs ++ tail)).data_packets +
      (applyFrames (startPacketMonitoring n stPre).state (fs ++ tail)).ctrl_packets ≤
      (applyFrames (startPacketMonitoring n stPre).state (fs ++ tail)).packet_count ∧
    (applyFrames (startPacketMonitoring n stPre).state (fs ++ tail)).monitoring_active = true := by
  have hspec := startPacketMonitoring_spec n stPre hconn hlo hhi
  have hm : (startPacketMonitoring n stPre).state.monitoring_active = true := by rw [hspec]; rfl
  have hz1 : (startPacketMonitoring n stPre).state.packet_count = 0 := by rw [hspec]; rfl
  have hz2 : (startPacketMonitoring n stPre).state.mgmt_packets = 0 := by rw [hspec]; rfl
  have hz3 : (startPacketMonitoring n stPre).state.data_packets = 0 := by rw [hspec]; rfl
  have hz4 : (startPacketMonitoring n stPre).state.ctrl_packets = 0 := by rw [hspec]; rfl
  have hb1 : (startPacketMonitoring n stPre).state.packet_count < UINT32_MOD := by
    rw [hz1]; exact uint32_mod_pos
  have hb2 : (startPacketMonitoring n stPre).state.mgmt_packets < UINT32_MOD := by
    rw [hz2]; exact uint32_mod_pos
  have hb3 : (startPacketMonitoring n stPre).state.data_packets < UINT32_MOD := by
    rw [hz3]; exact uint32_mod_pos
  have hb4 : (startPacketMonitoring n stPre).state.ctrl_packets < UINT32_MOD := by
    rw [hz4]; exact uint32_mod_pos
  have lenle : fs.length ≤ (fs ++ tail).length := by
    rw [List.length_append]; omega
  have hcle : ∀ t : WifiPktType, (fs ++ tail).count t ≤ (fs ++ tail).length :=
    fun t => List.count_le_length t (fs ++ tail)
  have hclefs : ∀ t : WifiPktType, fs.count t ≤ (fs ++ tail).length :=
    fun t => le_trans (List.count_le_length t fs) lenle
  have hA1 : (applyFrames (startPacketMonitoring n stPre).state fs).packet_count = fs.length := by
    rw [applyFrames_packet_count _ _ hm hb1, hz1, Nat.zero_add,
      Nat.mod_eq_of_lt (lt_of_le_of_lt lenle hlen)]
  have hB1 : (applyFrames (startPacketMonitoring n stPre).state (fs ++ tail)).packet_count =
      (fs ++ tail).length := by
    rw [applyFrames_packet_count _ _ hm hb1, hz1, Nat.zero_add, Nat.mod_eq_of_lt hlen]
  have hA2 : (applyFrames (startPacketMonitoring n stPre).state fs).mgmt_packets =
      fs.count WifiPktType.mgmt := by
    rw [applyFrames_mgmt _ _ hm hb2, hz2, Nat.zero_add,
      Nat.mod_eq_of_lt (lt_of_le_of_lt (hclefs _) hlen)]
  have hB2 : (applyFrames (startPacketMonitoring n stPre).state (fs ++ tail)).mgmt_packets =
      (fs ++ tail).count WifiPktType.mgmt := by
    rw [applyFrames_mgmt _ _ hm hb2, hz2, Nat.zero_add,
      Nat.mod_eq_of_lt (lt_of_le_of_lt (hcle _) hlen)]
  have hA3 : (applyFrames (startPacketMonitoring n stPre).state fs).data_packets =
      fs.count WifiPktType.data := by
    rw [applyFrames_data _ _ hm hb3, hz3, Nat.zero_add,
      Nat.mod_eq_of_lt (lt_of_le_of_lt (hclefs _) hlen)]
  have hB3 : (applyFrames (startPacketMonitoring n stPre).state (fs ++ tail)).data_packets =
      (fs ++ tail).count WifiPktType.data := by
    rw [applyFrames_data _ _ hm hb3, hz3, Nat.zero_add,
      Nat.mod_eq_of_lt (lt_of_le_of_lt (hcle _) hlen)]
  have hA4 : (applyFrames (startPacketMonitoring n stPre).state fs).ctrl_packets =
      fs.count WifiPktType.ctrl := by
    rw [applyFrames_ctrl _ _ hm hb4, hz4, Nat.zero_add,
      Nat.mod_eq_of_lt (lt_of_le_of_lt (hclefs _) hlen)]
  have hB4 : (applyFrames (startPacketMonitoring n stPre).state (fs ++ tail)).ctrl_packets =
      (fs ++ tail).count WifiPktType.ctrl := by
    rw [applyFrames_ctrl _ _ hm hb4, hz4, Nat.zero_add,
      Nat.mod_eq_of_lt (lt_of_le_of_lt (hcle _) hlen)]
  refine ⟨?_, ?_, ?_, ?_, ?_, ?_⟩
  · rw [hA1, hB1]; exact lenle
  · rw [hA2, hB2, List.count_append]; omega
  · rw [hA3, hB3, List.count_append]; omega
  · rw [hA4, hB4, List.count_append]; omega
  · rw [hB1, hB2, hB3, hB4]; exact three_counts_le_length (fs ++ tail)
  · rw [applyFrames_monitoring]; exact hm

/-- Concrete instance of `C2_monitoring_invariant` on a three-frame
delivery. -/
theorem C2_witness :
    (applyFrames (startPacketMonitoring 6 initialState).state
        [WifiPktType.data, WifiPktType.mgmt]).packet_count ≤
      (applyFrames (startPacketMonitoring 6 initialState).state
        ([WifiPktType.data, WifiPktType.mgmt] ++ [WifiPktType.misc])).packet_count ∧
    (applyFrames (startPacketMonitoring 6 initialState).state
        ([WifiPktType.data, WifiPktType.mgmt] ++ [WifiPktType.misc])).mgmt_packets +
      (applyFrames (startPacketMonitoring 6 initialState).state
        ([WifiPktType.data, WifiPktType.mgmt] ++ [WifiPktType.misc])).data_packets +
      (applyFrames (startPacketMonitoring 6 initialState).state
        ([WifiPktType.data, WifiPktType.mgmt] ++ [WifiPktType.misc])).ctrl_packets ≤
      (applyFrames (startPacketMonitoring 6 initialState).state
        ([WifiPktType.data, WifiPktType.mgmt] ++ [WifiPktType.misc])).packet_count := by
  have h := C2_monitoring_invariant initialState 6 [WifiPktType.data, WifiPktType.mgmt]
    [WifiPktType.misc] rfl (by norm_num) (by norm_num) (by decide)
  exact ⟨h.1, h.2.2.2.2.1⟩

/-- Claim C2 as stated is false on the code: delivering one more data
frame after `2 ^ 32 - 1` of them strictly decreases `packet_count`
(32-bit wrap-around), so the counters are not monotonically
non-decreasing over arbitrary reachable monitoring states. -/
theorem C2_counterexample :
    (applyFrames (startPacketMonitoring 6 initialState).state
        (wrapFrames ++ [WifiPktType.data])).packet_count <
      (applyFrames (startPacketMonitoring 6 initialState).state wrapFrames).packet_count := by
  have hspec := startPacketMonitoring_spec 6 initialState rfl (by norm_num) (by norm_num)
  have hm : (startPacketMonitoring 6 initialState).state.monitoring_active = true := by rw [hspec]; rfl
  have hz1 : (startPacketMonitoring 6 initialState).state.packet_count = 0 := by rw [hspec]; rfl
  have hb1 : (startPacketMonitoring 6 initialState).state.packet_count < UINT32_MOD := by
    rw [hz1]; exact uint32_mod_pos
  have hlenw : wrapFrames.length = UINT32_MOD - 1 := by
    rw [wrapFrames, List.length_replicate]
  have hA : (applyFrames (startPacketMonitoring 6 initialState).state wrapFrames).packet_count =
      UINT32_MOD - 1 := by
    rw [applyFrames_packet_count _ _ hm hb1, hz1, Nat.zero_add, hlenw,
      Nat.mod_eq_of_lt (by norm_num [UINT32_MOD])]
  have hB : (applyFrames (startPacketMonitoring 6 initialState).state
      (wrapFrames ++ [WifiPktType.data])).packet_count = 0 := by
    rw [applyFrames_packet_count _ _ hm hb1, hz1, Nat.zero_add, List.length_append, hlenw]
    norm_num [UINT32_MOD]
  rw [hA, hB]
  norm_num [UINT32_MOD]

/-- Claim C3: a scan and a connect are rejected with their guard message
and change no state while monitoring is active; in particular
`connect MyNet pw123` while monitoring on channel 6 is rejected with
exactly "Stop packet monitoring before connecting to WiFi." and the
mode is unchanged; a monitor command while connected is rejected with
its guard message and changes no state. -/
theorem C3_mutual_exclusion :
    (∀ (env : Env) (st : ScannerState), st.monitoring_active = true →
      startNetworkScan env st =
        { state := st
          out := ["Stop packet monitoring before scanning networks."]
          beginArgs := none }) ∧
    (∀ (env : Env) (ssid pw : AStr) (st : ScannerState), st.monitoring_active = true →
      connectToWiFi env ssid pw st =
        { state := st
          out := ["Stop packet monitoring before connecting to WiFi."]
          beginArgs := none }) ∧
    (∀ (ch : Int) (st : ScannerState), st.connected_to_wifi = true →
      startPacketMonitoring ch st =
        { state := st
          out := ["Disconnect from WiFi before starting packet monitoring."]
          beginArgs := none }) ∧
    (∀ env : Env, processCommand env (chars "connect MyNet pw123") stMon6 =
        { state := stMon6
          out := ["Stop packet monitoring before connecting to WiFi."]
          beginArgs := none }) ∧
    (∀ env : Env, processCommand env (chars "scan") stMon6 =
        { state := stMon6
          out := ["Stop packet monitoring before scanning networks."]
          beginArgs := none }) ∧
    (∀ env : Env, processCommand env (chars "monitor 3") stConn =
        { state := stConn
          out := ["Disconnect from WiFi before starting packet monitoring."]
          beginArgs := none }) ∧
    mode stMon6 = Mode.Monitoring ∧ stMon6.current_channel = 6 ∧
    mode stConn = Mode.Connected := by
  refine ⟨?_, ?_, ?_, ?_, ?_, ?_, rfl, rfl, rfl⟩
  · intro env st h
    rw [startNetworkScan, if_pos h]
  · intro env ssid pw st h
    rw [connectToWiFi, if_pos h]
  · intro ch st h
    rw [startPacketMonitoring, if_pos h]
  · intro env
    rfl
  · intro env
    rfl
  · intro env
    rfl

/-- Concrete instances of the three guards of `C3_mutual_exclusion`. -/
theorem C3_witness :
    startNetworkScan env0 stMon6 =
      { state := stMon6
        out := ["Stop packet monitoring before scanning networks."]
        beginArgs := none } ∧
    connectToWiFi env0 (chars "a") (chars "b") stMon6 =
      { state := stMon6
        out := ["Stop packet monitoring before connecting to WiFi."]
        beginArgs := none } ∧
    startPacketMonitoring 3 stConn =
      { state := stConn
        out := ["Disconnect from WiFi before starting packet monitoring."]
        beginArgs := none } :=
  ⟨C3_mutual_exclusion.1 env0 stMon6 rfl,
   C3_mutual_exclusion.2.1 env0 (chars "a") (chars "b") stMon6 rfl,
   C3_mutual_exclusion.2.2.1 3 stConn rfl⟩

/-- Claim C4: every Start Monitoring call with a channel in `[1, 14]`
while not connected zeroes all four counters, stores the channel,
transitions to Monitoring and emits the start banner ending in exactly
one immediate status line; `monitor 6` from Idle yields Monitoring on
channel 6 with zero counters and a status line showing 2437 MHz, per
`frequencyMHz = 2412 + (channel - 1) * 5`. -/
theorem C4_start_monitoring (n : Int) (st : ScannerState)
    (hconn : st.connected_to_wifi = false) (hlo : 1 ≤ n) (hhi : n ≤ 14) :
    startPacketMonitoring n st =
      { state := armState n st
        out := ["Packet monitoring started on channel " ++ toString n,
                "Monitoring 2.4GHz frequency: "
                  ++ toString (2412 + (n - 1) * 5) ++ " MHz",
                "Press \x27stop\x27 to end monitoring or \x27channel <n>\x27 to change channel",
                "",
                updateMonitoringStatus (armState n st)]
        beginArgs := none } ∧
    mode (startPacketMonitoring n st).state = Mode.Monitoring ∧
    (startPacketMonitoring n st).state.current_channel = n ∧
    (startPacketMonitoring n st).state.packet_count = 0 ∧
    (startPacketMonitoring n st).state.mgmt_packets = 0 ∧
    (startPacketMonitoring n st).state.data_packets = 0 ∧
    (startPacketMonitoring n st).state.ctrl_packets = 0 ∧
    (∀ env : Env, processCommand env (chars "monitor 6") initialState =
      { state := stMon6
        out := ["Packet monitoring started on channel 6",
                "Monitoring 2.4GHz frequency: 2437 MHz",
                "Press \x27stop\x27 to end monitoring or \x27channel <n>\x27 to change channel",
                "",
                "CH6 | Packets: 0 | Mgmt: 0 | Data: 0 | Ctrl: 0 | Freq: 2437MHz"]
        beginArgs := none }) ∧
    mode stMon6 = Mode.Monitoring := by
  have hspec := startPacketMonitoring_spec n st hconn hlo hhi
  refine ⟨hspec, ?_, ?_, ?_, ?_, ?_, ?_, ?_, rfl⟩
  · rw [hspec]; rfl
  · rw [hspec]; rfl
  · rw [hspec]; rfl
  · rw [hspec]; rfl
  · rw [hspec]; rfl
  · rw [hspec]; rfl
  · intro env
    rfl

/-- Concrete instance of `C4_start_monitoring` for channel 2. -/
theorem C4_witness :
    startPacketMonitoring 2 initialState =
      { state := armState 2 initialState
        out := ["Packet monitoring started on channel " ++ toString (2 : Int),
                "Monitoring 2.4GHz frequency: "
                  ++ toString (2412 + ((2 : Int) - 1) * 5) ++ " MHz",
                "Press \x27stop\x27 to end monitoring or \x27channel <n>\x27 to change channel",
                "",
                updateMonitoringStatus (armState 2 initialState)]
        beginArgs := none } ∧
    mode (startPacketMonitoring 2 initialState).state = Mode.Monitoring :=
  ⟨(C4_start_monitoring 2 initialState rfl (by norm_num) (by norm_num)).1,
   (C4_start_monitoring 2 initialState rfl (by norm_num) (by norm_num)).2.1⟩

/-- Claim C5: for every integer argument outside `[1, 14]` (any
whitespace-free, lower-case-fixed spelling of it), `channel n` and
`monitor n` are rejected with their validation messages and leave the
whole state, in particular the stored channel and the mode,
unchanged. -/
theorem C5_out_of_range_channel (env : Env) (st : ScannerState) (rest : AStr)
    (hne : rest ≠ []) (hfix : ∀ c ∈ rest, isWS c = false ∧ lowerChar c = c)
    (hout : toIntA rest < 1 ∨ 14 < toIntA rest) :
    processCommand env (chars "channel " ++ rest) st =
      { state := st
        out := ["Invalid channel. Use 1-14 (2.4GHz ISM band)."]
        beginArgs := none } ∧
    processCommand env (chars "monitor " ++ rest) st =
      { state := st
        out := ["Invalid channel. Use 1-14 or 0 for current channel."]
        beginArgs := none } ∧
    (processCommand env (chars "channel " ++ rest) st).state.current_channel =
      st.current_channel ∧
    mode (processCommand env (chars "monitor " ++ rest) st).state = mode st := by
  have h1 : processCommand env (chars "channel " ++ rest) st =
      { state := st
        out := ["Invalid channel. Use 1-14 (2.4GHz ISM band)."]
        beginArgs := none } := by
    rw [dispatch_channel env st rest hne hfix, changeChannel, if_pos (by omega)]
  have h2 : processCommand env (chars "monitor " ++ rest) st =
      { state := st
        out := ["Invalid channel. Use 1-14 or 0 for current channel."]
        beginArgs := none } := by
    rw [dispatch_monitor env st rest hne hfix, if_neg (by omega)]
  exact ⟨h1, h2, by rw [h1], by rw [h2]⟩

/-- Concrete instance of `C5_out_of_range_channel` at argument 15. -/
theorem C5_witness :
    processCommand env0 (chars "channel " ++ chars "15") initialState =
      { state := initialState
        out := ["Invalid channel. Use 1-14 (2.4GHz ISM band)."]
        beginArgs := none } ∧
    processCommand env0 (chars "monitor " ++ chars "15") initialState =
      { state := initialState
        out := ["Invalid channel. Use 1-14 or 0 for current channel."]
        beginArgs := none } := by
  have h := C5_out_of_range_channel env0 initialState (chars "15") (by decide)
    (by decide) (by decide)
  exact ⟨h.1, h.2.1⟩

/-- Claim C6 as stated is false on the code: in mode Idle the input
`monitor 15` does not produce the response "Invalid channel. Use 1-14."
(the dispatcher validates the argument itself and prints its own, longer
message). -/
theorem C6_counterexample :
    (processCommand env0 (chars "monitor 15") initialState).out ≠
      ["Invalid channel. Use 1-14."] := by
  decide

/-- Claim C6 (amended): in mode Idle the input `monitor 15` produces
exactly the response "Invalid channel. Use 1-14 or 0 for current
channel." and the mode remains Idle. -/
theorem C6_monitor15_amended :
    processCommand env0 (chars "monitor 15") initialState =
      { state := initialState
        out := ["Invalid channel. Use 1-14 or 0 for current channel."]
        beginArgs := none } ∧
    mode (processCommand env0 (chars "monitor 15") initialState).state = Mode.Idle := by
  decide

/-- Environment reporting two discovered networks. -/
def envScan : Env :=
  { scanResults :=
      [{ ssid := chars "alpha", bssid := chars "aa:bb:cc:dd:ee:01",
         channel := 1, rssi := -42, encryption := 3 },
       { ssid := [], bssid := chars "aa:bb:cc:dd:ee:02",
         channel := 11, rssi := -77, encryption := 0 }]
    wifiStatus := fun _ => false
    localIP := ""
    gatewayIP := ""
    dnsIP := ""
    linkRSSI := 0
    linkChannel := 0 }

/-- Claim C7: every scan that runs (monitoring not active) leaves the
registry equal to the discovery-ordered scan report truncated at the
fixed capacity, with the registry size `min n 50`, hence never above
50 whatever the sweep reports. -/
theorem C7_scan_registry (env : Env) (st : ScannerState)
    (hm : st.monitoring_active = false) :
    (startNetworkScan env st).state.detected_networks =
      (env.scanResults.take MAX_NETWORKS).map mkNetworkInfo ∧
    (startNetworkScan env st).state.network_count =
      min env.scanResults.length MAX_NETWORKS ∧
    (startNetworkScan env st).state.network_count ≤ 50 := by
  rw [startNetworkScan, if_neg (by rw [hm]; simp)]
  by_cases hn : env.scanResults.length = 0
  · rw [if_pos hn]
    have : env.scanResults = [] := List.length_eq_zero.mp hn
    rw [this]
    refine ⟨rfl, ?_, ?_⟩ <;> simp
  · rw [if_neg hn]
    refine ⟨rfl, ?_, ?_⟩
    · simp [List.length_take, Nat.min_comm]
    · simp [List.length_take, MAX_NETWORKS]

/-- Concrete instance of `C7_scan_registry` on a two-network report. -/
theorem C7_witness :
    (startNetworkScan envScan initialState).state.detected_networks =
      (envScan.scanResults.take MAX_NETWORKS).map mkNetworkInfo ∧
    (startNetworkScan envScan initialState).state.network_count =
      min envScan.scanResults.length MAX_NETWORKS ∧
    (startNetworkScan envScan initialState).state.network_count ≤ 50 :=
  C7_scan_registry envScan initialState rfl

/-- Claim C8: when every status poll of a connect attempt fails (the
20-attempt retry budget is exhausted), a failure is reported, the state
is exactly the starting state, so the mode remains Idle, the connected
flag stays false and no connected SSID is recorded. -/
theorem C8_connect_retry_exhaustion (env : Env) (ssid pw : AStr) (st : ScannerState)
    (hm : st.monitoring_active = false) (hc : st.connected_to_wifi = false)
    (hfail : ∀ k, env.wifiStatus k = false) :
    connectToWiFi env ssid pw st =
      { state := st
        out := ["Connecting to: " ++ String.mk ssid,
                "\nConnection failed!",
                "Check SSID and password, or network availability."]
        beginArgs := some (ssid, pw) } ∧
    mode (connectToWiFi env ssid pw st).state = Mode.Idle ∧
    (connectToWiFi env ssid pw st).state.connected_to_wifi = false ∧
    (connectToWiFi env ssid pw st).state.connected_ssid = st.connected_ssid := by
  have h1 : connectToWiFi env ssid pw st =
      { state := st
        out := ["Connecting to: " ++ String.mk ssid,
                "\nConnection failed!",
                "Check SSID and password, or network availability."]
        beginArgs := some (ssid, pw) } := by
    rw [connectToWiFi, if_neg (by rw [hm]; simp), if_neg (by rw [hfail]; simp)]
  refine ⟨h1, ?_, ?_, ?_⟩ <;> rw [h1] <;> simp [mode, hm, hc]

/-- Concrete instance of `C8_connect_retry_exhaustion` under the
never-connecting environment. -/
theorem C8_witness :
    connectToWiFi env0 (chars "mynet") (chars "pw123") initialState =
      { state := initialState
        out := ["Connecting to: " ++ String.mk (chars "mynet"),
                "\nConnection failed!",
                "Check SSID and password, or network availability."]
        beginArgs := some (chars "mynet", chars "pw123") } ∧
    mode (connectToWiFi env0 (chars "mynet") (chars "pw123") initialState).state =
      Mode.Idle := by
  have h := C8_connect_retry_exhaustion env0 (chars "mynet") (chars "pw123")
    initialState rfl rfl (fun _ => rfl)
  exact ⟨h.1, h.2.1⟩

/-- Claim C9 as stated is false on the code: a bare `connect` with no
arguments at all produces the unknown-command response, not a usage
message. -/
theorem C9_counterexample :
    (processCommand env0 (chars "connect") initialState).out =
      ["Unknown command: connect", "Type \x27help\x27 for available commands."] ∧
    (processCommand env0 (chars "connect") initialState).out ≠
      ["Usage: connect <ssid> <password>"] := by
  decide

/-- Claim C9 (amended): a `connect` line whose remainder holds no space
(no password token) produces the usage message and performs no state
transition; a bare `connect` with no arguments falls through to the
unknown-command response, also with no state transition. -/
theorem C9_malformed_connect (env : Env) (st : ScannerState) (rest : AStr)
    (hne : rest ≠ []) (hfix : ∀ c ∈ rest, isWS c = false) :
    processCommand env (chars "connect " ++ rest) st =
      { state := st, out := ["Usage: connect <ssid> <password>"], beginArgs := none } ∧
    processCommand env (chars "connect") st =
      { state := st
        out := ["Unknown command: connect", "Type \x27help\x27 for available commands."]
        beginArgs := none } := by
  constructor
  · have hlast : ∀ c, rest.getLast? = some c → isWS c = false := fun c hc =>
      hfix c (List.mem_of_getLast?_eq_some hc)
    rw [dispatch_connect env st rest hne hlast]
    have hsp : ' ' ∉ toLowerCaseA rest := by
      intro hmem
      obtain ⟨d, hd, hdeq⟩ := List.mem_map.mp hmem
      have hws := hfix d hd
      rw [(lowerChar_eq_space_iff d).mp hdeq] at hws
      exact absurd hws (by decide)
    simp [indexOfA_eq_neg_one _ _ hsp]
  · rfl

/-- Concrete instance of `C9_malformed_connect` at `connect abc`. -/
theorem C9_witness :
    processCommand env0 (chars "connect " ++ chars "abc") initialState =
      { state := initialState
        out := ["Usage: connect <ssid> <password>"]
        beginArgs := none } :=
  (C9_malformed_connect env0 initialState (chars "abc") (by decide) (by decide)).1

/-- Claim C10: the dispatcher lower-cases the whole line before parsing,
so the SSID and password handed to `WiFi.begin` for a
`connect <ssid> <password>` line are the lower-cased forms of what was
typed; and lower-casing moves any string holding an upper-case letter,
so such credentials are never passed through verbatim. -/
theorem C10_lowercase_credentials (env : Env) (st : ScannerState) (ssid pw : AStr)
    (hm : st.monitoring_active = false)
    (hsne : ssid ≠ []) (hsp : ' ' ∉ ssid)
    (hpne : pw ≠ []) (hplast : ∀ c, pw.getLast? = some c → isWS c = false) :
    (processCommand env (chars "connect " ++ (ssid ++ ' ' :: pw)) st).beginArgs =
      some (toLowerCaseA ssid, toLowerCaseA pw) ∧
    (∀ s : AStr, (∃ c ∈ s, ('A' ≤ c && c ≤ 'Z') = true) → toLowerCaseA s ≠ s) := by
  constructor
  · have hne : ssid ++ ' ' :: pw ≠ [] := by simp
    have hlast : ∀ c, (ssid ++ ' ' :: pw).getLast? = some c → isWS c = false := by
      intro c hc
      rw [List.getLast?_append_of_ne_nil _ (List.cons_ne_nil _ _)] at hc
      rw [show (' ' :: pw) = [' '] ++ pw from rfl,
        List.getLast?_append_of_ne_nil _ hpne] at hc
      exact hplast c hc
    rw [dispatch_connect env st _ hne hlast]
    have hparams : toLowerCaseA (ssid ++ ' ' :: pw) =
        toLowerCaseA ssid ++ ' ' :: toLowerCaseA pw := by
      rw [toLowerCaseA, List.map_append, List.map_cons]
      rfl
    have hsp2 : ' ' ∉ toLowerCaseA ssid := by
      intro hmem
      obtain ⟨d, hd, hdeq⟩ := List.mem_map.mp hmem
      exact hsp ((lowerChar_eq_space_iff d).mp hdeq ▸ hd)
    have hidx : indexOfA ' ' (toLowerCaseA ssid ++ ' ' :: toLowerCaseA pw) =
        ((toLowerCaseA ssid).length : Int) := indexOfA_append_cons _ _ _ hsp2
    have hlpos : 0 < (toLowerCaseA ssid).length := by
      rw [toLowerCaseA, List.length_map]
      exact List.length_pos.mpr hsne
    simp only [hparams, hidx]
    rw [if_pos (by exact_mod_cast hlpos)]
    rw [Int.toNat_natCast]
    rw [List.take_left, List.drop_append 1, List.drop_succ_cons, List.drop_zero]
    rw [connectToWiFi, if_neg (by rw [hm]; simp)]
    by_cases hw : env.wifiStatus (pollConnect env.wifiStatus 20 0 + 1) = true
    · simp [hw]
    · simp [hw]
  · rintro s ⟨c, hc, hupper⟩ heq
    exact lowerChar_ne_of_upper c hupper (fixed_of_map_eq_self s heq c hc)

/-- Concrete instance of `C10_lowercase_credentials`: `connect MyNet
PW123` attempts the association with `mynet` / `pw123`. -/
theorem C10_witness :
    (processCommand env0 (chars "connect MyNet PW123") initialState).beginArgs =
      some (chars "mynet", chars "pw123") := by
  have hpl : ∀ c, (chars "PW123").getLast? = some c → isWS c = false := by
    intro c hc
    rw [show (chars "PW123").getLast? = some '3' from rfl] at hc
    injection hc with h2
    rw [← h2]
    decide
  have h := (C10_lowercase_credentials env0 initialState (chars "MyNet") (chars "PW123")
    rfl (by decide) (by decide) (by decide) hpl).1
  have heq : chars "connect MyNet PW123" =
      chars "connect " ++ (chars "MyNet" ++ ' ' :: chars "PW123") := by decide
  rw [heq, h]
  decide
